import Mathlib

/-!
Shallow embedding of the ggen repository (src/ggen/__main__.py and
src/ggrama/__main__.py): the layered configuration model, the ordered
search-path resource resolution, and the generation pipeline tail.
External collaborators (the filesystem, the json parser of the standard
library, the llama model runtime) are passed in as explicit parameters.
-/

/-- Filesystem abstraction: the only operations the program performs are
existence tests, directory tests and whole-file reads. -/
structure FS where
  fileExists : String → Bool
  isDir : String → Bool
  read : String → String

/-- Embeds Python pathlib's Path(path) / name for the relative names used
by the program. -/
def pjoin (d f : String) : String := d ++ "/" ++ f

/-- Model of a parsed JSON value, the result type of the external json
parser (json.load / json.loads).  The program never inspects the structure
of a parsed value, it only carries it, so scalar cases suffice as the
opaque value domain. -/
inductive Json where
  | jnull
  | jbool (b : Bool)
  | jnum (n : Int)
  | jstr (s : String)
deriving DecidableEq, Repr

/-- A dynamically typed Python value as stored in a Config attribute:
None, a string, or a list of strings (the value shapes the configuration
files and argparse produce for these fields). -/
inductive PyVal where
  | pnone
  | pstr (s : String)
  | plist (xs : List String)
deriving DecidableEq, Repr

/-- Python truthiness for the values above (None and empty string and
empty list are falsy), as used by the ternary overrides in main. -/
def PyVal.truthy : PyVal → Bool
  | .pnone => false
  | .pstr s => s ≠ ""
  | .plist xs => xs ≠ []

/-- Result of load_schema: json.load of a bare schema file gives a parsed
value, f.read of a .gbnf file gives raw grammar text. -/
inductive SchemaResult where
  | parsedJson (v : Json)
  | rawText (s : String)
deriving DecidableEq, Repr

/-- The exceptions the resolution functions raise.  valueError embeds
ValueError for a missing name; notFound embeds FileNotFoundError, whose
f-string message interpolates exactly the attempted name and the searched
path list carried here; jsonDecodeError embeds json.JSONDecodeError. -/
inductive ResErr where
  | valueError (msg : String)
  | notFound (name : String) (searched : List String)
  | jsonDecodeError
deriving DecidableEq, Repr

instance {ε α : Type} [DecidableEq ε] [DecidableEq α] : DecidableEq (Except ε α) :=
  fun a b =>
  match a, b with
  | .ok x, .ok y =>
    if h : x = y then isTrue (by rw [h]) else isFalse (by intro hh; cases hh; exact h rfl)
  | .error x, .error y =>
    if h : x = y then isTrue (by rw [h]) else isFalse (by intro hh; cases hh; exact h rfl)
  | .ok _, .error _ => isFalse (by intro h; cases h)
  | .error _, .ok _ => isFalse (by intro h; cases h)

/-- First-match search over an ordered directory list: embeds the
for-loop-with-early-return shape shared by load_prompt_template,
find_model_path and load_schema. -/
def searchPaths (f : String → Option α) : List String → Option α
  | [] => none
  | p :: rest =>
    match f p with
    | some r => some r
    | none => searchPaths f rest

/-- Embeds find_model_path's loop body: the candidate path tried in one
directory (identical in ggen and ggrama). -/
def find_model_in_dir (fs : FS) (name path : String) : Option String :=
  if fs.fileExists (pjoin path name) then some (pjoin path name) else none

/-- Embeds find_model_path (identical in src/ggen/__main__.py lines
115..122 of ggrama and 124..131 of ggen): None name raises ValueError,
otherwise first directory containing the name wins, else
FileNotFoundError carrying the name and the searched list. -/
def find_model_path (fs : FS) (model_paths : List String)
    (model_name : Option String) : Except ResErr String :=
  match model_name with
  | none => .error (.valueError "No model name provided")
  | some name =>
    match searchPaths (find_model_in_dir fs name) model_paths with
    | some p => .ok p
    | none => .error (.notFound name model_paths)

namespace ggen

/-- Embeds the loop body of ggen's load_prompt_template: each directory is
probed for the file named name ++ ".txt". -/
def template_in_dir (fs : FS) (name path : String) : Option String :=
  if fs.fileExists (pjoin path (name ++ ".txt")) then
    some (fs.read (pjoin path (name ++ ".txt")))
  else none

/-- Embeds ggen's load_prompt_template (src/ggen/__main__.py lines
110..121): the suffixed name is looked up in each directory in order; the
final FileNotFoundError message interpolates the suffixed name and the
searched list. -/
def load_prompt_template (fs : FS) (prompt_template_paths : List String)
    (prompt_template_name : Option String) : Except ResErr String :=
  match prompt_template_name with
  | none => .error (.valueError "No prompt template name provided")
  | some name =>
    match searchPaths (template_in_dir fs name) prompt_template_paths with
    | some t => .ok t
    | none => .error (.notFound (name ++ ".txt") prompt_template_paths)

/-- Embeds the loop body of ggen's load_schema: in one directory, the bare
name is tried first (content json.load-ed), then the ".gbnf"-suffixed name
(content returned raw). -/
def schema_in_dir (jl : String → Option Json) (fs : FS) (name path : String) :
    Option (Except ResErr SchemaResult) :=
  if fs.fileExists (pjoin path name) then
    some (match jl (fs.read (pjoin path name)) with
          | some v => .ok (.parsedJson v)
          | none => .error .jsonDecodeError)
  else if fs.fileExists (pjoin path (name ++ ".gbnf")) then
    some (.ok (.rawText (fs.read (pjoin path (name ++ ".gbnf")))))
  else none

/-- Embeds ggen's load_schema (src/ggen/__main__.py lines 134..151), with
the external json.load passed in as jl. -/
def load_schema (jl : String → Option Json) (fs : FS)
    (schema_paths : List String) (schema_name : Option String) :
    Except ResErr SchemaResult :=
  match schema_name with
  | none => .error (.valueError "No schema name provided")
  | some name =>
    match searchPaths (schema_in_dir jl fs name) schema_paths with
    | some r => r
    | none => .error (.notFound name schema_paths)

/-- Embeds the search-path expressions of ggen's main (lines 194..196):
the direct-path override, when truthy, is appended as a one-element list
after the configured search paths. -/
def effective_search_paths (cfg_paths : List String)
    (override : Option String) : List String :=
  cfg_paths ++ (match override with
                | some s => if s ≠ "" then [s] else []
                | none => [])

end ggen

namespace ggrama

/-- Embeds the loop body of ggrama's load_prompt_template: each directory
is probed for the bare name. -/
def template_in_dir (fs : FS) (name path : String) : Option String :=
  if fs.fileExists (pjoin path name) then some (fs.read (pjoin path name))
  else none

/-- Embeds ggrama's load_prompt_template (src/ggrama/__main__.py lines
104..112): the bare name is looked up in each directory in order. -/
def load_prompt_template (fs : FS) (prompt_template_paths : List String)
    (prompt_template_name : Option String) : Except ResErr String :=
  match prompt_template_name with
  | none => .error (.valueError "No prompt template name provided")
  | some name =>
    match searchPaths (template_in_dir fs name) prompt_template_paths with
    | some t => .ok t
    | none => .error (.notFound name prompt_template_paths)

/-- Embeds the loop body of ggrama's load_schema: the bare name is tried
first, then the ".gbnf"-suffixed name, and the content of BOTH is passed
through json.load. -/
def schema_in_dir (jl : String → Option Json) (fs : FS) (name path : String) :
    Option (Except ResErr SchemaResult) :=
  if fs.fileExists (pjoin path name) then
    some (match jl (fs.read (pjoin path name)) with
          | some v => .ok (.parsedJson v)
          | none => .error .jsonDecodeError)
  else if fs.fileExists (pjoin path (name ++ ".gbnf")) then
    some (match jl (fs.read (pjoin path (name ++ ".gbnf"))) with
          | some v => .ok (.parsedJson v)
          | none => .error .jsonDecodeError)
  else none

/-- Embeds ggrama's load_schema (src/ggrama/__main__.py lines 125..142). -/
def load_schema (jl : String → Option Json) (fs : FS)
    (schema_paths : List String) (schema_name : Option String) :
    Except ResErr SchemaResult :=
  match schema_name with
  | none => .error (.valueError "No schema name provided")
  | some name =>
    match searchPaths (schema_in_dir jl fs name) schema_paths with
    | some r => r
    | none => .error (.notFound name schema_paths)

/-- Embeds the search-path expressions of ggrama's main (lines 180..182):
a truthy direct-path override replaces the configured search paths by a
one-element list. -/
def effective_search_paths (cfg_paths : List String)
    (override : Option String) : List String :=
  match override with
  | some s => if s ≠ "" then [s] else cfg_paths
  | none => cfg_paths

end ggrama

/-- Enumerates the nine data attributes set in Config.__init__ (identical
in ggen and ggrama). -/
inductive CfgField where
  | model_name
  | model_path
  | schema_name
  | schema_path
  | prompt_template_file
  | prompt_template_path
  | model_paths
  | schema_paths
  | prompt_template_paths
deriving DecidableEq, Repr

/-- Embeds the hasattr test of Config.load_from_file over the data
attributes set in Config.__init__: maps a configuration-file key to the
field it names, none for unrecognized keys. -/
def fieldOfKey (k : String) : Option CfgField :=
  if k = "model_name" then some .model_name
  else if k = "model_path" then some .model_path
  else if k = "schema_name" then some .schema_name
  else if k = "schema_path" then some .schema_path
  else if k = "prompt_template_file" then some .prompt_template_file
  else if k = "prompt_template_path" then some .prompt_template_path
  else if k = "model_paths" then some .model_paths
  else if k = "schema_paths" then some .schema_paths
  else if k = "prompt_template_paths" then some .prompt_template_paths
  else none

/-- Embeds the Config object of both entry scripts: nine dynamically typed
attributes (Python performs no type check when a configuration file
assigns them, so every field holds a PyVal). -/
structure Config where
  model_name : PyVal
  model_path : PyVal
  schema_name : PyVal
  schema_path : PyVal
  prompt_template_file : PyVal
  prompt_template_path : PyVal
  model_paths : PyVal
  schema_paths : PyVal
  prompt_template_paths : PyVal
deriving DecidableEq, Repr

/-- Attribute read (getattr) on a Config field. -/
def getF (c : Config) : CfgField → PyVal
  | .model_name => c.model_name
  | .model_path => c.model_path
  | .schema_name => c.schema_name
  | .schema_path => c.schema_path
  | .prompt_template_file => c.prompt_template_file
  | .prompt_template_path => c.prompt_template_path
  | .model_paths => c.model_paths
  | .schema_paths => c.schema_paths
  | .prompt_template_paths => c.prompt_template_paths

/-- Attribute write (setattr) on a Config field. -/
def setF (c : Config) : CfgField → PyVal → Config
  | .model_name, v => { c with model_name := v }
  | .model_path, v => { c with model_path := v }
  | .schema_name, v => { c with schema_name := v }
  | .schema_path, v => { c with schema_path := v }
  | .prompt_template_file, v => { c with prompt_template_file := v }
  | .prompt_template_path, v => { c with prompt_template_path := v }
  | .model_paths, v => { c with model_paths := v }
  | .schema_paths, v => { c with schema_paths := v }
  | .prompt_template_paths, v => { c with prompt_template_paths := v }

/-- Embeds one iteration of Config.load_from_file's loop: if hasattr(self,
key) then setattr(self, key, value) else skip. -/
def Config.setattr (c : Config) (k : String) (v : PyVal) : Config :=
  match fieldOfKey k with
  | some f => setF c f v
  | none => c

/-- Embeds Config.load_from_file (lines 66..71 of ggen, 61..66 of ggrama):
the parsed JSON object is walked in order and each recognized key is
assigned. -/
def Config.load_from_file (c : Config) (data : List (String × PyVal)) : Config :=
  data.foldl (fun c kv => c.setattr kv.1 kv.2) c

/-- Embeds the config-file loop of main: files applied in command-line
order. -/
def Config.load_from_files (c : Config) (files : List (List (String × PyVal))) : Config :=
  files.foldl Config.load_from_file c

/-- Specification helper for the theorems: the value of the last
occurrence in kvs of a key naming field f, if any. -/
def lastValF (f : CfgField) (kvs : List (String × PyVal)) : Option PyVal :=
  kvs.foldl (fun acc kv => if fieldOfKey kv.1 = some f then some kv.2 else acc) none

/-- Embeds the CLI-override ternaries of main in both scripts (ggen lines
172..177, ggrama 163..168): the args value wins when Python-truthy (a
nonempty string), otherwise the config attribute stands. -/
def mergeOverride (cli : Option String) (cfg : PyVal) : PyVal :=
  match cli with
  | some s => if s ≠ "" then .pstr s else cfg
  | none => cfg

namespace ggen

/-- Embeds ggen's merged prompt_template_file: argparse gives the
prompt-template flag the default value "instruct" (build_argparser line
101), so the ternary at line 176 sees that default when the flag is
absent. -/
def merged_prompt_template_file (supplied : Option String) (cfg : PyVal) : PyVal :=
  let a := supplied.getD "instruct"
  if a ≠ "" then .pstr a else cfg

end ggen

/-- The three resource subdirectories probed under each standard
directory. -/
def subdirList : List String := ["models", "schemas", "prompt_templates"]

/-- The search-path triple built by Config.__init__ before it is stored in
the Config attributes. -/
structure SearchPathsState where
  model_paths : List String
  schema_paths : List String
  prompt_template_paths : List String
deriving DecidableEq, Repr

/-- Embeds the three-way append of _add_resources_from_directory's inner
loop body. -/
def addSubdir (sp : SearchPathsState) (subdir path : String) : SearchPathsState :=
  if subdir = "models" then { sp with model_paths := sp.model_paths ++ [path] }
  else if subdir = "schemas" then { sp with schema_paths := sp.schema_paths ++ [path] }
  else if subdir = "prompt_templates" then
    { sp with prompt_template_paths := sp.prompt_template_paths ++ [path] }
  else sp

/-- Embeds _add_resources_from_directory of ggen (lines 53..64) and
_load_resources_from_directory of ggrama (lines 54..59): a directory is
skipped unless it is a directory, and each of its three resource
subdirectories is appended only when it is itself a directory. -/
def add_resources_from_directory (fs : FS) (sp : SearchPathsState)
    (directory : String) : SearchPathsState :=
  if fs.isDir directory then
    subdirList.foldl (fun sp subdir =>
      if fs.isDir (pjoin directory subdir) then addSubdir sp subdir (pjoin directory subdir)
      else sp) sp
  else sp

/-- The standard_dirs literal of load_defaults_from_standard_directories. -/
def standard_dirs : List String :=
  ["/etc/ggrama", "/usr/share/ggrama", "/usr/local/share/ggrama",
   "~/.local/ggrama", "~/.config/gramma"]

/-- Embeds Path.expanduser for the shapes occurring in standard_dirs: a
leading tilde component is replaced by the home directory. -/
def expanduser (home p : String) : String :=
  match p.data with
  | '~' :: '/' :: rest => home ++ String.mk ('/' :: rest)
  | _ => p

/-- Embeds load_defaults_from_standard_directories: first the packaged
resources directory (whose location importlib hands back, passed here as
resources_path), then the five standard directories with the user's home
expanded. -/
def default_search_paths (fs : FS) (resources_path home : String) : SearchPathsState :=
  let sp := add_resources_from_directory fs ⟨[], [], []⟩ resources_path
  (standard_dirs.map (expanduser home)).foldl (add_resources_from_directory fs) sp

/-- Embeds Config.__init__: scalar attributes start as None, the list
attributes are filled by the standard-directory scan. -/
def Config.init (fs : FS) (resources_path home : String) : Config :=
  let sp := default_search_paths fs resources_path home
  { model_name := .pnone
    model_path := .pnone
    schema_name := .pnone
    schema_path := .pnone
    prompt_template_file := .pnone
    prompt_template_path := .pnone
    model_paths := .plist sp.model_paths
    schema_paths := .plist sp.schema_paths
    prompt_template_paths := .plist sp.prompt_template_paths }

/-- Numeric value of a decimal digit character. -/
def digitVal (c : Char) : Nat := c.toNat - 48

/-- Parses an all-digit replacement-field name as a positional index. -/
def parseIndex (cs : List Char) : Option Nat :=
  if cs ≠ [] ∧ cs.all (·.isDigit) then
    some (cs.foldl (fun n c => n * 10 + digitVal c) 0)
  else none

/-- Splits a replacement field at its closing brace: returns the field
name characters and the remainder after the brace, none when the field is
unterminated. -/
def splitField : List Char → Option (List Char × List Char)
  | [] => none
  | c :: rest =>
    if c = '}' then some ([], rest)
    else match splitField rest with
         | some (f, r) => some (c :: f, r)
         | none => none

/-- Keyword-argument lookup for a replacement field. -/
def lookupKw (k : String) : List (String × String) → Option String
  | [] => none
  | (k', v) :: rest => if k = k' then some v else lookupKw k rest

/-- Resolves one replacement field against the positional and keyword
arguments, threading Python's auto-numbering counter; none embeds the
IndexError / KeyError raised on a missing argument. -/
def resolveField (field : List Char) (pos : List String) (auto : Nat)
    (kw : List (String × String)) : Option (String × Nat) :=
  if field = [] then (pos.get? auto).map (fun v => (v, auto + 1))
  else
    match parseIndex field with
    | some i => (pos.get? i).map (fun v => (v, auto))
    | none => (lookupKw (String.mk field) kw).map (fun v => (v, auto))

/-- Fuel-driven core of the str.format model over the template's character
list. -/
def formatAux (pos : List String) (kw : List (String × String)) :
    Nat → List Char → Nat → Option (List Char)
  | 0, _, _ => none
  | fuel + 1, cs, auto =>
    match cs with
    | [] => some []
    | '{' :: '{' :: rest => (formatAux pos kw fuel rest auto).map (fun t => '{' :: t)
    | '}' :: '}' :: rest => (formatAux pos kw fuel rest auto).map (fun t => '}' :: t)
    | '{' :: rest =>
      match splitField rest with
      | none => none
      | some (field, rest') =>
        match resolveField field pos auto kw with
        | none => none
        | some (v, auto') => (formatAux pos kw fuel rest' auto').map (fun t => v.data ++ t)
    | '}' :: _ => none
    | c :: rest => (formatAux pos kw fuel rest auto).map (fun t => c :: t)

/-- Model of the subset of Python str.format the program exercises:
literal text, doubled-brace escapes, and auto-numbered, explicitly
numbered and named replacement fields without conversion or format
specifications; none embeds the exceptions format raises (unmatched
braces, missing positional or keyword argument). -/
def pyFormat (template : String) (pos : List String)
    (kw : List (String × String)) : Option String :=
  (formatAux pos kw (template.length + 1) template.data 0).map String.mk

/-- The exceptions escaping the generation step of main: formatKeyError
embeds the KeyError / IndexError raised by str.format, malformedOutput
embeds the json.JSONDecodeError raised by json.loads on the model's
response text. -/
inductive GenErr where
  | formatKeyError
  | malformedOutput
deriving DecidableEq, Repr

namespace ggen

/-- Embeds the prompt rendering of ggen's generate_with_grammar line 155:
prompt_template.format(prompt=prompt, input_data=input_data). -/
def render (template prompt input_data : String) : Option String :=
  pyFormat template [] [("prompt", prompt), ("input_data", input_data)]

/-- Embeds ggen's generate_with_grammar (lines 154..158).  The model
runtime is the external parameter model, standing for the Llama call
composed with the response plumbing that extracts
response choices[0] text; jl is the external json.loads. -/
def generate_with_grammar {γ : Type} (jl : String → Option Json)
    (model : String → γ → String) (prompt_template prompt input_data : String)
    (grammar : γ) : Except GenErr Json :=
  match render prompt_template prompt input_data with
  | none => .error .formatKeyError
  | some full_prompt =>
    match jl (model full_prompt grammar) with
    | none => .error .malformedOutput
    | some v => .ok v

end ggen

namespace ggrama

/-- Embeds the prompt rendering of ggrama's generate_with_grammar line
146: prompt_template.format(*prompt) unpacks the prompt string into one
single-character positional argument per character and passes no keyword
arguments. -/
def render (template prompt : String) : Option String :=
  pyFormat template (prompt.data.map fun c => String.mk [c]) []

/-- Embeds ggrama's generate_with_grammar (lines 145..149); unlike ggen's
it receives no input_data. -/
def generate_with_grammar {γ : Type} (jl : String → Option Json)
    (model : String → γ → String) (prompt_template prompt : String)
    (grammar : γ) : Except GenErr Json :=
  match render prompt_template prompt with
  | none => .error .formatKeyError
  | some full_prompt =>
    match jl (model full_prompt grammar) with
    | none => .error .malformedOutput
    | some v => .ok v

end ggrama

/-- The externally visible writes of one invocation: the (path, value)
pairs dumped to the output file, the values printed to standard output,
and the exception escaping main, if any. -/
structure Outcome where
  fileWrites : List (String × Json)
  stdoutWrites : List Json
  err : Option GenErr
deriving DecidableEq, Repr

namespace ggen

/-- Embeds the tail of ggen's main (lines 208..215): an exception raised
by generate_with_grammar propagates before any write happens; on success
the result is dumped to the output file when that argument is truthy,
otherwise printed to standard output. -/
def emitResult (r : Except GenErr Json) (output_file : Option String) : Outcome :=
  match r with
  | .error e => ⟨[], [], some e⟩
  | .ok v =>
    match output_file with
    | some f => if f ≠ "" then ⟨[(f, v)], [], none⟩ else ⟨[], [v], none⟩
    | none => ⟨[], [v], none⟩

/-- The generation-and-emission tail of ggen's main as one function. -/
def runTail {γ : Type} (jl : String → Option Json) (model : String → γ → String)
    (prompt_template prompt input_data : String) (grammar : γ)
    (output_file : Option String) : Outcome :=
  emitResult (generate_with_grammar jl model prompt_template prompt input_data grammar)
    output_file

end ggen

/-- Invariant for the default-directory scan: every collected entry is an
existing directory. -/
def goodSP (fs : FS) (sp : SearchPathsState) : Prop :=
  (∀ p ∈ sp.model_paths, fs.isDir p = true) ∧
  (∀ p ∈ sp.schema_paths, fs.isDir p = true) ∧
  (∀ p ∈ sp.prompt_template_paths, fs.isDir p = true)


/-- A json parser standing for json.load in concrete counterexamples: it
accepts every input and returns it as a JSON string value, so the examples
do not depend on the eccentricities of any concrete grammar. -/
def jl0 : String → Option Json := fun s => some (.jstr s)

/-- Concrete filesystem: directory d1 holds answer.gbnf (content g1), a
later directory d2 holds the bare file answer (content b2). -/
def fsC1 : FS where
  fileExists := fun p => p == "d1/answer.gbnf" || p == "d2/answer"
  isDir := fun _ => false
  read := fun p =>
    if p == "d1/answer.gbnf" then "g1" else if p == "d2/answer" then "b2" else ""

/-- Concrete filesystem: the file answer exists in both d1 and d2 with
distinct contents. -/
def fsC2 : FS where
  fileExists := fun p => p == "d1/answer" || p == "d2/answer"
  isDir := fun _ => false
  read := fun p =>
    if p == "d1/answer" then "c1" else if p == "d2/answer" then "c2" else ""

/-- Concrete filesystem: only d1/answer.gbnf exists (content root). -/
def fsC3 : FS where
  fileExists := fun p => p == "d1/answer.gbnf"
  isDir := fun _ => false
  read := fun p => if p == "d1/answer.gbnf" then "root" else ""

/-- Concrete filesystem with no files and no directories. -/
def fsEmpty : FS where
  fileExists := fun _ => false
  isDir := fun _ => false
  read := fun _ => ""

/-- A Config whose every attribute is None or empty, as a concrete base
for witnesses. -/
def cfg0 : Config where
  model_name := .pnone
  model_path := .pnone
  schema_name := .pnone
  schema_path := .pnone
  prompt_template_file := .pnone
  prompt_template_path := .pnone
  model_paths := .plist []
  schema_paths := .plist []
  prompt_template_paths := .plist []

/-- Concrete filesystem for the default-scan witness: /etc/ggrama exists
and holds a models subdirectory. -/
def fsC9 : FS where
  fileExists := fun _ => false
  isDir := fun p => p == "/etc/ggrama" || p == "/etc/ggrama/models"
  read := fun _ => ""

/-- Concrete filesystem: directory t holds tmpl.txt, directory u holds the
bare tmpl. -/
def fsC10 : FS where
  fileExists := fun p => p == "t/tmpl.txt" || p == "u/tmpl"
  isDir := fun _ => false
  read := fun p =>
    if p == "t/tmpl.txt" then "TXT" else if p == "u/tmpl" then "BARE" else ""

theorem searchPaths_cons_some {f : String → Option α} {p : String} {r : α}
    (h : f p = some r) (rest : List String) :
    searchPaths f (p :: rest) = some r := by
  simp [searchPaths, h]

theorem searchPaths_cons_none {f : String → Option α} {p : String}
    (h : f p = none) (rest : List String) :
    searchPaths f (p :: rest) = searchPaths f rest := by
  simp [searchPaths, h]

theorem searchPaths_append_none {f : String → Option α} {pre : List String}
    (h : ∀ p ∈ pre, f p = none) (rest : List String) :
    searchPaths f (pre ++ rest) = searchPaths f rest := by
  induction pre with
  | nil => rfl
  | cons p ps ih =>
    have hp : f p = none := h p (by simp)
    rw [List.cons_append, searchPaths_cons_none hp]
    exact ih (fun q hq => h q (by simp [hq]))

theorem searchPaths_none {f : String → Option α} {paths : List String}
    (h : ∀ p ∈ paths, f p = none) :
    searchPaths f paths = none := by
  have := searchPaths_append_none h []
  simpa using this


theorem getF_setF_eq (c : Config) (f : CfgField) (v : PyVal) : getF (setF c f v) f = v := by
  cases f <;> rfl

theorem getF_setF_ne (c : Config) {f f' : CfgField} (h : f' ≠ f) (v : PyVal) :
    getF (setF c f' v) f = getF c f := by
  cases f <;> cases f' <;> first | rfl | exact absurd rfl h

theorem getF_setattr (c : Config) (k : String) (v : PyVal) (f : CfgField) :
    getF (Config.setattr c k v) f = if fieldOfKey k = some f then v else getF c f := by
  unfold Config.setattr
  cases hk : fieldOfKey k with
  | none => simp
  | some f' =>
    by_cases hf : f' = f
    · subst hf; simp [getF_setF_eq]
    · rw [if_neg (by simp [hf]), getF_setF_ne c hf v]

theorem lastValF_foldl_acc (f : CfgField) (kvs : List (String × PyVal)) (acc : Option PyVal) :
    kvs.foldl (fun acc kv => if fieldOfKey kv.1 = some f then some kv.2 else acc) acc =
      match lastValF f kvs with
      | some v => some v
      | none => acc := by
  induction kvs generalizing acc with
  | nil => rfl
  | cons kv rest ih =>
    rw [List.foldl_cons]
    rw [ih]
    conv_rhs => rw [lastValF, List.foldl_cons, show List.foldl
      (fun acc kv => if fieldOfKey kv.1 = some f then some kv.2 else acc)
      (if fieldOfKey kv.1 = some f then some kv.2 else none) rest =
        match lastValF f rest with
        | some v => some v
        | none => (if fieldOfKey kv.1 = some f then some kv.2 else none) from ih _]
    cases lastValF f rest <;> by_cases h : fieldOfKey kv.1 = some f <;> simp [h]

theorem getF_load_from_file (c : Config) (kvs : List (String × PyVal)) (f : CfgField) :
    getF (Config.load_from_file c kvs) f = (lastValF f kvs).getD (getF c f) := by
  induction kvs generalizing c with
  | nil => rfl
  | cons kv rest ih =>
    rw [show Config.load_from_file c (kv :: rest) =
          Config.load_from_file (c.setattr kv.1 kv.2) rest from rfl]
    rw [ih, getF_setattr]
    rw [show lastValF f (kv :: rest) =
          match lastValF f rest with
          | some v => some v
          | none => (if fieldOfKey kv.1 = some f then some kv.2 else none) from by
      rw [lastValF, List.foldl_cons]
      exact lastValF_foldl_acc f rest _]
    cases lastValF f rest <;> by_cases h : fieldOfKey kv.1 = some f <;> simp [h]

theorem load_from_files_join (c : Config) (files : List (List (String × PyVal))) :
    Config.load_from_files c files = Config.load_from_file c files.flatten := by
  induction files generalizing c with
  | nil => rfl
  | cons fdata rest ih =>
    rw [show Config.load_from_files c (fdata :: rest) =
          Config.load_from_files (Config.load_from_file c fdata) rest from rfl]
    rw [ih, List.flatten_cons]
    unfold Config.load_from_file
    rw [List.foldl_append]

theorem load_from_file_filter (c : Config) (kvs : List (String × PyVal)) :
    Config.load_from_file c kvs =
      Config.load_from_file c (kvs.filter fun kv => (fieldOfKey kv.1).isSome) := by
  induction kvs generalizing c with
  | nil => rfl
  | cons kv rest ih =>
    rw [show Config.load_from_file c (kv :: rest) =
          Config.load_from_file (c.setattr kv.1 kv.2) rest from rfl]
    cases hk : fieldOfKey kv.1 with
    | none =>
      have hset : c.setattr kv.1 kv.2 = c := by unfold Config.setattr; rw [hk]
      rw [hset, ih, List.filter_cons, if_neg (by simp [hk])]
    | some f =>
      rw [ih, List.filter_cons, if_pos (by simp [hk])]
      rfl

theorem ggen_schema_in_dir_none {jl : String → Option Json} {fs : FS} {name path : String}
    (h1 : fs.fileExists (pjoin path name) = false)
    (h2 : fs.fileExists (pjoin path (name ++ ".gbnf")) = false) :
    ggen.schema_in_dir jl fs name path = none := by
  simp [ggen.schema_in_dir, h1, h2]

theorem ggen_schema_in_dir_bare {jl : String → Option Json} {fs : FS} {name path : String}
    (h1 : fs.fileExists (pjoin path name) = true) :
    ggen.schema_in_dir jl fs name path =
      some (match jl (fs.read (pjoin path name)) with
            | some v => .ok (.parsedJson v)
            | none => .error .jsonDecodeError) := by
  simp [ggen.schema_in_dir, h1]

theorem ggen_schema_in_dir_gbnf {jl : String → Option Json} {fs : FS} {name path : String}
    (h1 : fs.fileExists (pjoin path name) = false)
    (h2 : fs.fileExists (pjoin path (name ++ ".gbnf")) = true) :
    ggen.schema_in_dir jl fs name path =
      some (.ok (.rawText (fs.read (pjoin path (name ++ ".gbnf"))))) := by
  simp [ggen.schema_in_dir, h1, h2]

theorem ggrama_schema_in_dir_none {jl : String → Option Json} {fs : FS} {name path : String}
    (h1 : fs.fileExists (pjoin path name) = false)
    (h2 : fs.fileExists (pjoin path (name ++ ".gbnf")) = false) :
    ggrama.schema_in_dir jl fs name path = none := by
  simp [ggrama.schema_in_dir, h1, h2]

theorem ggrama_schema_in_dir_bare {jl : String → Option Json} {fs : FS} {name path : String}
    (h1 : fs.fileExists (pjoin path name) = true) :
    ggrama.schema_in_dir jl fs name path =
      some (match jl (fs.read (pjoin path name)) with
            | some v => .ok (.parsedJson v)
            | none => .error .jsonDecodeError) := by
  simp [ggrama.schema_in_dir, h1]

theorem ggrama_schema_in_dir_gbnf {jl : String → Option Json} {fs : FS} {name path : String}
    (h1 : fs.fileExists (pjoin path name) = false)
    (h2 : fs.fileExists (pjoin path (name ++ ".gbnf")) = true) :
    ggrama.schema_in_dir jl fs name path =
      some (match jl (fs.read (pjoin path (name ++ ".gbnf"))) with
            | some v => .ok (.parsedJson v)
            | none => .error .jsonDecodeError) := by
  simp [ggrama.schema_in_dir, h1, h2]

theorem ggen_load_schema_of_search {jl : String → Option Json} {fs : FS}
    {paths : List String} {name : String} {r : Except ResErr SchemaResult}
    (h : searchPaths (ggen.schema_in_dir jl fs name) paths = some r) :
    ggen.load_schema jl fs paths (some name) = r := by
  simp [ggen.load_schema, h]

theorem ggen_load_schema_of_search_none {jl : String → Option Json} {fs : FS}
    {paths : List String} {name : String}
    (h : searchPaths (ggen.schema_in_dir jl fs name) paths = none) :
    ggen.load_schema jl fs paths (some name) = .error (.notFound name paths) := by
  simp [ggen.load_schema, h]

theorem ggrama_load_schema_of_search {jl : String → Option Json} {fs : FS}
    {paths : List String} {name : String} {r : Except ResErr SchemaResult}
    (h : searchPaths (ggrama.schema_in_dir jl fs name) paths = some r) :
    ggrama.load_schema jl fs paths (some name) = r := by
  simp [ggrama.load_schema, h]

theorem schema_search_first_gbnf {jl : String → Option Json} {fs : FS}
    (pre post : List String) (d name : String)
    (hpre : ∀ d' ∈ pre, fs.fileExists (pjoin d' name) = false ∧
      fs.fileExists (pjoin d' (name ++ ".gbnf")) = false)
    (hbare : fs.fileExists (pjoin d name) = false)
    (hgbnf : fs.fileExists (pjoin d (name ++ ".gbnf")) = true) :
    ggen.load_schema jl fs (pre ++ d :: post) (some name) =
      .ok (.rawText (fs.read (pjoin d (name ++ ".gbnf")))) ∧
    ggrama.load_schema jl fs (pre ++ d :: post) (some name) =
      (match jl (fs.read (pjoin d (name ++ ".gbnf"))) with
       | some v => Except.ok (SchemaResult.parsedJson v)
       | none => Except.error ResErr.jsonDecodeError) := by
  constructor
  · apply ggen_load_schema_of_search
    rw [searchPaths_append_none
      (fun q hq => ggen_schema_in_dir_none (hpre q hq).1 (hpre q hq).2)]
    exact searchPaths_cons_some (ggen_schema_in_dir_gbnf hbare hgbnf) post
  · apply ggrama_load_schema_of_search
    rw [searchPaths_append_none
      (fun q hq => ggrama_schema_in_dir_none (hpre q hq).1 (hpre q hq).2)]
    exact searchPaths_cons_some (ggrama_schema_in_dir_gbnf hbare hgbnf) post

theorem ggen_schema_search_first_bare {jl : String → Option Json} {fs : FS}
    (pre post : List String) (d name : String)
    (hpre : ∀ d' ∈ pre, fs.fileExists (pjoin d' name) = false ∧
      fs.fileExists (pjoin d' (name ++ ".gbnf")) = false)
    (hbare : fs.fileExists (pjoin d name) = true) :
    ggen.load_schema jl fs (pre ++ d :: post) (some name) =
      (match jl (fs.read (pjoin d name)) with
       | some v => Except.ok (SchemaResult.parsedJson v)
       | none => Except.error ResErr.jsonDecodeError) := by
  apply ggen_load_schema_of_search
  rw [searchPaths_append_none
    (fun q hq => ggen_schema_in_dir_none (hpre q hq).1 (hpre q hq).2)]
  exact searchPaths_cons_some (ggen_schema_in_dir_bare hbare) post

theorem forall_append_singleton {l : List String} {x : String} {P : String → Prop}
    (hl : ∀ p ∈ l, P p) (hx : P x) : ∀ p ∈ l ++ [x], P p := by
  intro p hp
  rcases List.mem_append.mp hp with h | h
  · exact hl p h
  · rw [List.mem_singleton.mp h]; exact hx

theorem goodSP_addSubdir {fs : FS} {sp : SearchPathsState} (h : goodSP fs sp)
    {subdir path : String} (hp : fs.isDir path = true) :
    goodSP fs (addSubdir sp subdir path) := by
  obtain ⟨h1, h2, h3⟩ := h
  unfold addSubdir
  split_ifs
  · exact ⟨forall_append_singleton h1 hp, h2, h3⟩
  · exact ⟨h1, forall_append_singleton h2 hp, h3⟩
  · exact ⟨h1, h2, forall_append_singleton h3 hp⟩
  · exact ⟨h1, h2, h3⟩

theorem goodSP_foldl_subdirs {fs : FS} (directory : String) :
    ∀ (l : List String) (sp : SearchPathsState), goodSP fs sp →
      goodSP fs (l.foldl (fun sp subdir =>
        if fs.isDir (pjoin directory subdir) then
          addSubdir sp subdir (pjoin directory subdir)
        else sp) sp)
  | [], _, h => h
  | s :: rest, sp, h => by
    rw [List.foldl_cons]
    apply goodSP_foldl_subdirs directory rest
    split_ifs with hd
    · exact goodSP_addSubdir h hd
    · exact h

theorem goodSP_add_resources {fs : FS} {sp : SearchPathsState} (h : goodSP fs sp)
    (directory : String) : goodSP fs (add_resources_from_directory fs sp directory) := by
  unfold add_resources_from_directory
  split_ifs with hdir
  · exact goodSP_foldl_subdirs directory subdirList sp h
  · exact h

theorem goodSP_foldl_dirs {fs : FS} :
    ∀ (dirs : List String) (sp : SearchPathsState), goodSP fs sp →
      goodSP fs (dirs.foldl (add_resources_from_directory fs) sp)
  | [], _, h => h
  | d :: rest, sp, h => by
    rw [List.foldl_cons]
    exact goodSP_foldl_dirs rest _ (goodSP_add_resources h d)

theorem goodSP_default (fs : FS) (resources_path home : String) :
    goodSP fs (default_search_paths fs resources_path home) := by
  unfold default_search_paths
  refine goodSP_foldl_dirs _ _ (goodSP_add_resources ⟨?_, ?_, ?_⟩ resources_path) <;>
    intro p hp <;> cases hp

/-- C1 counterexample: with d1 holding answer.gbnf and the later d2
holding the bare answer, load_schema resolves the suffixed file of d1 (raw
text g1), not the bare file of d2, refuting the two-sequential-passes
claim at this concrete input. -/
theorem C1_counterexample :
    ggen.load_schema jl0 fsC1 ["d1", "d2"] (some "answer") =
      .ok (.rawText "g1") ∧
    ggen.load_schema jl0 fsC1 ["d1", "d2"] (some "answer") ≠
      .ok (.parsedJson (Json.jstr "b2")) ∧
    ggen.load_schema jl0 fsC1 ["d1", "d2"] (some "answer") ≠
      .ok (.rawText "b2") := by
  decide

/-- C1 (amended): the extension fallback is interleaved per directory, not
two sequential passes: the first listed directory containing either the
bare or the suffixed name settles the lookup, with the bare name preferred
within that directory; later directories are never consulted, even when
one of them holds the bare file.  Both entry points share this order,
differing only in how the suffixed file's content is treated. -/
theorem C1_schema_fallback_interleaved_per_directory
    (jl : String → Option Json) (fs : FS) (pre post : List String) (d name : String)
    (hpre : ∀ d' ∈ pre, fs.fileExists (pjoin d' name) = false ∧
      fs.fileExists (pjoin d' (name ++ ".gbnf")) = false)
    (hbare : fs.fileExists (pjoin d name) = false)
    (hgbnf : fs.fileExists (pjoin d (name ++ ".gbnf")) = true) :
    ggen.load_schema jl fs (pre ++ d :: post) (some name) =
      .ok (.rawText (fs.read (pjoin d (name ++ ".gbnf")))) ∧
    ggrama.load_schema jl fs (pre ++ d :: post) (some name) =
      (match jl (fs.read (pjoin d (name ++ ".gbnf"))) with
       | some v => Except.ok (SchemaResult.parsedJson v)
       | none => Except.error ResErr.jsonDecodeError) :=
  schema_search_first_gbnf pre post d name hpre hbare hgbnf

/-- Witness for C1: the amended theorem applied to the concrete
filesystem fsC1 with an empty leading directory d0, the hit directory d1
and the bare-file directory d2 behind it. -/
theorem C1_amended_witness :
    ggen.load_schema jl0 fsC1 (["d0"] ++ "d1" :: ["d2"]) (some "answer") =
      .ok (.rawText "g1") ∧
    ggrama.load_schema jl0 fsC1 (["d0"] ++ "d1" :: ["d2"]) (some "answer") =
      .ok (.parsedJson (.jstr "g1")) := by
  have h := C1_schema_fallback_interleaved_per_directory jl0 fsC1 ["d0"] ["d2"]
    "d1" "answer" (by decide) (by decide) (by decide)
  exact ⟨h.1.trans (by decide), h.2.trans (by decide)⟩

/-- C2 counterexample: ggen's main appends the direct schema-path override
after the configured search paths, so the same-named schema in the
configured directory d1 is the one resolved, not the override directory
d2's copy. -/
theorem C2_counterexample :
    ggen.load_schema jl0 fsC2
      (ggen.effective_search_paths ["d1"] (some "d2")) (some "answer") =
      .ok (.parsedJson (Json.jstr "c1")) ∧
    ggen.load_schema jl0 fsC2
      (ggen.effective_search_paths ["d1"] (some "d2")) (some "answer") ≠
      .ok (.parsedJson (Json.jstr "c2")) := by
  decide

/-- C2 (amended): in ggrama a present, nonempty direct-path override
replaces the search-path list wholesale, so only the override directory is
consulted; in ggen the override directory is appended after the configured
search paths, so a configured directory containing the name wins over the
override. -/
theorem C2_amended_direct_override_precedence
    (jl : String → Option Json) (fs : FS) (s : String) (hs : s ≠ "") :
    (∀ (cfg_paths : List String) (name : Option String),
      ggrama.load_schema jl fs (ggrama.effective_search_paths cfg_paths (some s)) name =
        ggrama.load_schema jl fs [s] name) ∧
    (∀ (pre : List String) (d : String) (post : List String) (name : String),
      (∀ d' ∈ pre, fs.fileExists (pjoin d' name) = false ∧
        fs.fileExists (pjoin d' (name ++ ".gbnf")) = false) →
      fs.fileExists (pjoin d name) = true →
      ggen.load_schema jl fs
          (ggen.effective_search_paths (pre ++ d :: post) (some s)) (some name) =
        (match jl (fs.read (pjoin d name)) with
         | some v => Except.ok (SchemaResult.parsedJson v)
         | none => Except.error ResErr.jsonDecodeError)) := by
  constructor
  · intro cfg_paths name
    rw [show ggrama.effective_search_paths cfg_paths (some s) = [s] from by
      simp [ggrama.effective_search_paths, hs]]
  · intro pre d post name hpre hbare
    rw [show ggen.effective_search_paths (pre ++ d :: post) (some s) =
          pre ++ d :: (post ++ [s]) from by
      simp [ggen.effective_search_paths, hs]]
    exact ggen_schema_search_first_bare pre (post ++ [s]) d name hpre hbare

/-- Witness for C2: the amended theorem applied to fsC2 with configured
directory d1 and override directory d2. -/
theorem C2_amended_witness :
    ggrama.load_schema jl0 fsC2
        (ggrama.effective_search_paths ["d1"] (some "d2")) (some "answer") =
      ggrama.load_schema jl0 fsC2 ["d2"] (some "answer") ∧
    ggen.load_schema jl0 fsC2
        (ggen.effective_search_paths ([] ++ "d1" :: []) (some "d2")) (some "answer") =
      .ok (.parsedJson (.jstr "c1")) := by
  have h := C2_amended_direct_override_precedence jl0 fsC2 "d2" (by decide)
  exact ⟨h.1 ["d1"] (some "answer"),
    (h.2 [] "d1" [] "answer" (by intro q hq; cases hq) (by decide)).trans (by decide)⟩

/-- C3 counterexample: in ggrama, when only answer.gbnf exists, the
suffixed file's content is also passed through json.load, so the result is
a parsed JSON value, never the raw grammar text the claim demands. -/
theorem C3_counterexample :
    ggrama.load_schema jl0 fsC3 ["d1"] (some "answer") =
      .ok (.parsedJson (Json.jstr "root")) ∧
    ggrama.load_schema jl0 fsC3 ["d1"] (some "answer") ≠
      .ok (.rawText "root") := by
  decide

/-- C3 (amended): when the bare name exists in no search directory and the
suffixed name first appears in directory d, resolution succeeds; in ggen
the result is the suffixed file's raw text, while in ggrama the suffixed
file's content is parsed as JSON exactly like a bare hit (succeeding with
a parsed value or failing with a decode error), so only ggen's result form
is determined by which lookup succeeded. -/
theorem C3_amended_suffixed_schema_content_form
    (jl : String → Option Json) (fs : FS) (pre post : List String) (d name : String)
    (hnobare : ∀ d' ∈ pre ++ d :: post, fs.fileExists (pjoin d' name) = false)
    (hpre : ∀ d' ∈ pre, fs.fileExists (pjoin d' (name ++ ".gbnf")) = false)
    (hgbnf : fs.fileExists (pjoin d (name ++ ".gbnf")) = true) :
    ggen.load_schema jl fs (pre ++ d :: post) (some name) =
      .ok (.rawText (fs.read (pjoin d (name ++ ".gbnf")))) ∧
    ggrama.load_schema jl fs (pre ++ d :: post) (some name) =
      (match jl (fs.read (pjoin d (name ++ ".gbnf"))) with
       | some v => Except.ok (SchemaResult.parsedJson v)
       | none => Except.error ResErr.jsonDecodeError) := by
  apply schema_search_first_gbnf
  · exact fun q hq => ⟨hnobare q (List.mem_append_left _ hq), hpre q hq⟩
  · exact hnobare d (List.mem_append_right _ (List.mem_cons_self d post))
  · exact hgbnf

/-- Witness for C3: the amended theorem applied to fsC3, where only
d1/answer.gbnf exists. -/
theorem C3_amended_witness :
    ggen.load_schema jl0 fsC3 ([] ++ "d1" :: []) (some "answer") =
      .ok (.rawText "root") ∧
    ggrama.load_schema jl0 fsC3 ([] ++ "d1" :: []) (some "answer") =
      .ok (.parsedJson (.jstr "root")) := by
  have h := C3_amended_suffixed_schema_content_form jl0 fsC3 [] [] "d1" "answer"
    (by decide) (by decide) (by decide)
  exact ⟨h.1.trans (by decide), h.2.trans (by decide)⟩

/-- C4 counterexample: ggen's prompt-template flag carries the argparse
default instruct, so with the flag absent the merged value is instruct no
matter what a configuration file set; and a supplied empty string is
Python-falsy, so the configuration value stands instead of the supplied
value. -/
theorem C4_counterexample :
    ggen.merged_prompt_template_file none (.pstr "alpaca") = .pstr "instruct" ∧
    PyVal.pstr "instruct" ≠ PyVal.pstr "alpaca" ∧
    mergeOverride (some "") (.pstr "m1") = .pstr "m1" ∧
    PyVal.pstr "m1" ≠ PyVal.pstr "" := by
  decide

/-- C4 (amended): a CLI override supplied with a nonempty value replaces
the configuration-file value unconditionally; an absent or empty override
leaves the configuration value intact — except ggen's prompt_template_file,
whose argparse default instruct stands in whenever the flag is absent and
therefore overrides any configuration-file value. -/
theorem C4_amended_cli_override_merge (c : Config)
    (files : List (List (String × PyVal))) (cfg : PyVal) (s : String) (hs : s ≠ "") :
    mergeOverride (some s)
        (getF (Config.load_from_files c files) CfgField.model_name) = .pstr s ∧
    mergeOverride none cfg = cfg ∧
    mergeOverride (some "") cfg = cfg ∧
    ggen.merged_prompt_template_file (some s) cfg = .pstr s ∧
    ggen.merged_prompt_template_file none cfg = .pstr "instruct" := by
  refine ⟨?_, rfl, ?_, ?_, ?_⟩
  · simp [mergeOverride, hs]
  · simp [mergeOverride]
  · simp [ggen.merged_prompt_template_file, hs]
  · simp [ggen.merged_prompt_template_file]

/-- Witness for C4: a configuration file sets model_name, the CLI supplies
a different nonempty model name, and the CLI value wins. -/
theorem C4_amended_witness :
    mergeOverride (some "mymodel")
        (getF (Config.load_from_files cfg0 [[("model_name", PyVal.pstr "filemodel")]])
          CfgField.model_name) = .pstr "mymodel" ∧
    mergeOverride none (PyVal.pstr "x") = .pstr "x" ∧
    mergeOverride (some "") (PyVal.pstr "x") = .pstr "x" ∧
    ggen.merged_prompt_template_file (some "mymodel") (PyVal.pstr "x") = .pstr "mymodel" ∧
    ggen.merged_prompt_template_file none (PyVal.pstr "x") = .pstr "instruct" := by
  have h := C4_amended_cli_override_merge cfg0 [[("model_name", PyVal.pstr "filemodel")]]
    (PyVal.pstr "x") "mymodel" (by decide)
  exact ⟨h.1, h.2.1, h.2.2.1, h.2.2.2.1, h.2.2.2.2⟩

/-- C5: loading configuration files in order gives each of the nine fields
the value of the last occurrence of its key across all files (wholesale
replacement, lists included, last write wins), leaving the field untouched
when no file mentions it; and keys matching no Config attribute are
dropped without any effect or error. -/
theorem C5_config_file_layering :
    (∀ (c : Config) (files : List (List (String × PyVal))) (f : CfgField),
      getF (Config.load_from_files c files) f =
        (lastValF f files.flatten).getD (getF c f)) ∧
    (∀ (c : Config) (kvs : List (String × PyVal)),
      Config.load_from_file c kvs =
        Config.load_from_file c (kvs.filter fun kv => (fieldOfKey kv.1).isSome)) := by
  constructor
  · intro c files f
    rw [load_from_files_join, getF_load_from_file]
  · exact load_from_file_filter

/-- C6: evaluation at the claimed input: ggen's renderer performs the
claimed literal named substitution exactly, while ggrama's
format(*prompt) call supplies only the prompt's characters as positional
arguments and no named ones, so formatting the same template fails
(KeyError in Python, none here) instead of producing the claimed text. -/
theorem C6_prompt_rendering_eval :
    ggen.render "Q: {prompt}\nCTX: {input_data}\nA:" "capital of France?" "" =
      some "Q: capital of France?\nCTX: \nA:" ∧
    ggrama.render "Q: {prompt}\nCTX: {input_data}\nA:" "capital of France?" = none := by
  decide

/-- C7: when no searched directory contains the model name, and when no
searched directory contains either the bare or the suffixed schema name,
resolution fails with an error carrying the attempted name and the full
searched directory list. -/
theorem C7_not_found_carries_name_and_paths (jl : String → Option Json) (fs : FS)
    (paths : List String) (name : String) :
    ((∀ d ∈ paths, fs.fileExists (pjoin d name) = false) →
      find_model_path fs paths (some name) = .error (.notFound name paths)) ∧
    ((∀ d ∈ paths, fs.fileExists (pjoin d name) = false ∧
        fs.fileExists (pjoin d (name ++ ".gbnf")) = false) →
      ggen.load_schema jl fs paths (some name) = .error (.notFound name paths)) := by
  constructor
  · intro h
    have hn : searchPaths (find_model_in_dir fs name) paths = none :=
      searchPaths_none (fun d hd => by simp [find_model_in_dir, h d hd])
    simp [find_model_path, hn]
  · intro h
    exact ggen_load_schema_of_search_none
      (searchPaths_none (fun d hd => ggen_schema_in_dir_none (h d hd).1 (h d hd).2))

/-- Witness for C7: on an empty filesystem with two searched directories,
both failures carry the name and the exact two-element searched list. -/
theorem C7_witness :
    find_model_path fsEmpty ["da", "db"] (some "answer") =
      .error (.notFound "answer" ["da", "db"]) ∧
    ggen.load_schema jl0 fsEmpty ["da", "db"] (some "answer") =
      .error (.notFound "answer" ["da", "db"]) := by
  have h := C7_not_found_carries_name_and_paths jl0 fsEmpty ["da", "db"] "answer"
  exact ⟨h.1 (by decide), h.2 (by decide)⟩

/-- C8: when the model runtime's returned text fails to parse as JSON, the
generation-and-emission tail of ggen's main raises malformedOutput and
writes nothing to the output file or standard output. -/
theorem C8_malformed_output_no_emission {γ : Type} (jl : String → Option Json)
    (model : String → γ → String) (prompt_template prompt input_data : String)
    (grammar : γ) (output_file : Option String) (full_prompt : String)
    (hrender : ggen.render prompt_template prompt input_data = some full_prompt)
    (hbad : jl (model full_prompt grammar) = none) :
    ggen.runTail jl model prompt_template prompt input_data grammar output_file =
      { fileWrites := [], stdoutWrites := [], err := some GenErr.malformedOutput } := by
  simp [ggen.runTail, ggen.generate_with_grammar, hrender, hbad, ggen.emitResult]

/-- Witness for C8: an echoing model runtime and a parser rejecting
everything produce the malformed-output failure with no writes, even with
an output file configured. -/
theorem C8_witness :
    ggen.runTail (fun _ => none) (fun s _ => s) "{prompt}" "hi" "" () (some "out.json") =
      { fileWrites := [], stdoutWrites := [], err := some GenErr.malformedOutput } :=
  C8_malformed_output_no_emission (γ := Unit) (fun _ => none) (fun s _ => s)
    "{prompt}" "hi" "" () (some "out.json") "hi" (by decide) rfl

/-- C9: the Config built purely from defaults stores exactly the lists the
standard-directory scan produces, and every entry of those lists is a path
the filesystem reports as an existing directory; nonexistent standard
directories and missing resource subdirectories contribute nothing. -/
theorem C9_default_search_paths_exist (fs : FS) (resources_path home p : String) :
    getF (Config.init fs resources_path home) CfgField.model_paths =
      .plist (default_search_paths fs resources_path home).model_paths ∧
    getF (Config.init fs resources_path home) CfgField.schema_paths =
      .plist (default_search_paths fs resources_path home).schema_paths ∧
    getF (Config.init fs resources_path home) CfgField.prompt_template_paths =
      .plist (default_search_paths fs resources_path home).prompt_template_paths ∧
    (p ∈ (default_search_paths fs resources_path home).model_paths →
      fs.isDir p = true) ∧
    (p ∈ (default_search_paths fs resources_path home).schema_paths →
      fs.isDir p = true) ∧
    (p ∈ (default_search_paths fs resources_path home).prompt_template_paths →
      fs.isDir p = true) := by
  obtain ⟨h1, h2, h3⟩ := goodSP_default fs resources_path home
  exact ⟨rfl, rfl, rfl, h1 p, h2 p, h3 p⟩

/-- Witness for C9: /etc/ggrama/models exists under fsC9 and is collected,
and the theorem yields that it is an existing directory. -/
theorem C9_witness :
    "/etc/ggrama/models" ∈ (default_search_paths fsC9 "rp" "/home/u").model_paths ∧
    fsC9.isDir "/etc/ggrama/models" = true := by
  refine ⟨by decide, ?_⟩
  exact (C9_default_search_paths_exist fsC9 "rp" "/home/u" "/etc/ggrama/models").2.2.2.1
    (by decide)

/-- C10: ggen's load_prompt_template only ever probes name.txt, so it
fails when no directory holds name.txt (even if the bare name is present
everywhere) and returns the first directory's name.txt content otherwise;
ggrama's only ever probes the bare name, with the dual behavior. -/
theorem C10_template_name_convention_divergence (fs : FS) (paths : List String)
    (name : String) :
    ((∀ d ∈ paths, fs.fileExists (pjoin d (name ++ ".txt")) = false) →
      ggen.load_prompt_template fs paths (some name) =
        .error (.notFound (name ++ ".txt") paths)) ∧
    ((∀ d ∈ paths, fs.fileExists (pjoin d name) = false) →
      ggrama.load_prompt_template fs paths (some name) =
        .error (.notFound name paths)) ∧
    (∀ (pre : List String) (d : String) (post : List String),
      (∀ d' ∈ pre, fs.fileExists (pjoin d' (name ++ ".txt")) = false) →
      fs.fileExists (pjoin d (name ++ ".txt")) = true →
      ggen.load_prompt_template fs (pre ++ d :: post) (some name) =
        .ok (fs.read (pjoin d (name ++ ".txt")))) ∧
    (∀ (pre : List String) (d : String) (post : List String),
      (∀ d' ∈ pre, fs.fileExists (pjoin d' name) = false) →
      fs.fileExists (pjoin d name) = true →
      ggrama.load_prompt_template fs (pre ++ d :: post) (some name) =
        .ok (fs.read (pjoin d name))) := by
  refine ⟨?_, ?_, ?_, ?_⟩
  · intro h
    have hn : searchPaths (ggen.template_in_dir fs name) paths = none :=
      searchPaths_none (fun d hd => by simp [ggen.template_in_dir, h d hd])
    simp [ggen.load_prompt_template, hn]
  · intro h
    have hn : searchPaths (ggrama.template_in_dir fs name) paths = none :=
      searchPaths_none (fun d hd => by simp [ggrama.template_in_dir, h d hd])
    simp [ggrama.load_prompt_template, hn]
  · intro pre d post hpre hd
    have hs : searchPaths (ggen.template_in_dir fs name) (pre ++ d :: post) =
        some (fs.read (pjoin d (name ++ ".txt"))) := by
      rw [searchPaths_append_none (fun q hq => by simp [ggen.template_in_dir, hpre q hq])]
      exact searchPaths_cons_some (by simp [ggen.template_in_dir, hd]) post
    simp [ggen.load_prompt_template, hs]
  · intro pre d post hpre hd
    have hs : searchPaths (ggrama.template_in_dir fs name) (pre ++ d :: post) =
        some (fs.read (pjoin d name)) := by
      rw [searchPaths_append_none (fun q hq => by simp [ggrama.template_in_dir, hpre q hq])]
      exact searchPaths_cons_some (by simp [ggrama.template_in_dir, hd]) post
    simp [ggrama.load_prompt_template, hs]

/-- Witness for C10: under fsC10 (t/tmpl.txt and u/tmpl): ggen fails on
the directory holding only the bare name and succeeds on the one holding
tmpl.txt; ggrama behaves dually. -/
theorem C10_witness :
    ggen.load_prompt_template fsC10 ["u"] (some "tmpl") =
      .error (.notFound ("tmpl" ++ ".txt") ["u"]) ∧
    ggrama.load_prompt_template fsC10 ["t"] (some "tmpl") =
      .error (.notFound "tmpl" ["t"]) ∧
    ggen.load_prompt_template fsC10 ([] ++ "t" :: []) (some "tmpl") = .ok "TXT" ∧
    ggrama.load_prompt_template fsC10 ([] ++ "u" :: []) (some "tmpl") = .ok "BARE" := by
  have h1 := C10_template_name_convention_divergence fsC10 ["u"] "tmpl"
  have h2 := C10_template_name_convention_divergence fsC10 ["t"] "tmpl"
  refine ⟨h1.1 (by decide), h2.2.1 (by decide), ?_, ?_⟩
  · exact (h1.2.2.1 [] "t" [] (by intro q hq; cases hq) (by decide)).trans (by decide)
  · exact (h1.2.2.2 [] "u" [] (by intro q hq; cases hq) (by decide)).trans (by decide)
